import Mathlib

/-!
Shallow embedding of `View_FS_Golf_Lesson.py`, a single-file Streamlit viewer
for golf launch-monitor lessons.  Directory listings are lists of entries,
dataframe rows are association lists from column name to cell value, and the
script body `main` is modelled as a function producing the ordered list of
render actions it emits (`none` models an uncaught Python exception).
-/

/-- One entry of a directory listing (`base_dir.iterdir()`): its name and
whether it is a directory. -/
structure FSEntry where
  name : String
  isDir : Bool
deriving DecidableEq, Repr

/-- Model of `find_lessons` (lines 10-12): keep the entries of the base
directory listing that are directories and whose name is not an
environment-management name ("venv" or ".venv"). -/
def find_lessons (base_dir : List FSEntry) : List FSEntry :=
  let excluded : List String := ["venv", ".venv"]
  base_dir.filter (fun d => d.isDir && !excluded.contains d.name)

/-- One dataframe row: an association list from column label to cell value,
modelling a pandas Series indexed by the column labels. -/
abbrev Row := List (String × String)

/-- A loaded dataframe: the parsed CSV rows in file order, with the default
`RangeIndex` (row `i` has index `i`). -/
structure DataFrame where
  rows : List Row
deriving DecidableEq, Repr

/-- Unguarded label lookup `row[c]` on a row; `none` models a raised
`KeyError`. -/
def rowGet (r : Row) (c : String) : Option String :=
  r.lookup c

/-- Guarded lookup `row.get(c, d)` with a default value. -/
def rowGetD (r : Row) (c d : String) : String :=
  (rowGet r c).getD d

theorem rowGet_cons (a : String × String) (r : Row) (c : String) :
    rowGet (a :: r) c = if c == a.1 then some a.2 else rowGet r c := by
  cases h : c == a.1 <;> simp [rowGet, List.lookup, h]

/-- Claim check C1: `find_lessons` returns exactly the directory entries whose
name is neither "venv" nor ".venv", as a subsequence of the listing (so in
directory iteration order); on the listing {"LessonA", "venv", "LessonB"} it
returns exactly {"LessonA", "LessonB"}; non-directories are never returned. -/
theorem find_lessons_spec (base_dir : List FSEntry) :
    (∀ e : FSEntry, e ∈ find_lessons base_dir ↔
        e ∈ base_dir ∧ e.isDir = true ∧ e.name ≠ "venv" ∧ e.name ≠ ".venv") ∧
    (find_lessons base_dir).Sublist base_dir ∧
    find_lessons
        [⟨"LessonA", true⟩, ⟨"venv", true⟩, ⟨"LessonB", true⟩,
         ⟨"notes.txt", false⟩] =
      [⟨"LessonA", true⟩, ⟨"LessonB", true⟩] := by
  refine ⟨?_, List.filter_sublist _, by decide⟩
  intro e
  simp [find_lessons, List.mem_filter, and_assoc]

/-- The memo table of `@st.cache_data` applied to `load_data`, keyed by the
CSV path, together with a count of how many times the underlying file was
actually read and parsed. -/
structure LoadState where
  cache : List (String × DataFrame)
  reads : Nat
deriving DecidableEq, Repr

/-- Model of `load_data` (lines 14-17) under `@st.cache_data`: on a cache hit the
memoised dataframe is returned and the file is not touched; on a miss the
file is read and parsed via `pd.read_csv` (modelled by `fs`, the current
filesystem contents as parsed dataframes) and the result is memoised. -/
def load_data (fs : String → DataFrame) (st : LoadState) (csv_path : String) :
    DataFrame × LoadState :=
  match st.cache.lookup csv_path with
  | some df => (df, st)
  | none =>
    let df := fs csv_path
    (df, ⟨(csv_path, df) :: st.cache, st.reads + 1⟩)

/-- Evaluate `f` left to right on a list, failing as soon as one element
fails (the Option analogue of a Python loop that may raise). -/
def mapOpt {α β : Type} (f : α → Option β) : List α → Option (List β)
  | [] => some []
  | a :: t => do
    let b ← f a
    let bs ← mapOpt f t
    pure (b :: bs)

/-- Projection of one row to the given column labels (`df[cols]` restricted
to one row); `none` models the `KeyError` pandas raises when a label is
missing. -/
def projectRow (r : Row) (cols : List String) : Option Row :=
  mapOpt (fun c => (rowGet r c).map (fun v => (c, v))) cols

/-- Model of `df[preview_cols]` (line 45): column projection of the whole
table, keeping every row in file order. -/
def project (df : DataFrame) (cols : List String) : Option DataFrame :=
  (mapOpt (fun r => projectRow r cols) df.rows).map DataFrame.mk

/-- The fixed column set `preview_cols` (line 38) shown in the table view. -/
def preview_cols : List String :=
  ["Player", "Time", "Club", "Club Speed [mph]", "Shot Type", "Carry [yds]",
   "Radar Video"]

/-- The fixed list `desired_metrics` (lines 61-75) of metric columns of the
detail view, in declared order. -/
def desired_metrics : List String :=
  ["Index", "Carry [yds]", "Total [yds]", "Smash", "Spin [rpm]",
   "Club Path [deg]", "V-Plane [deg]", "Height [ft]", "Club Speed [mph]",
   "AOA [deg]", "Low Point [in]", "Club", "Shot Type"]

/-- Model of `format_shot` (lines 51-53): the selectbox label for one shot
index.  The lookup `df.loc[idx]` and the unguarded column accesses raise on
a miss, which is modelled by `none`. -/
def format_shot (df : DataFrame) (idx : Nat) : Option String := do
  let row ← df.rows.get? idx
  let club ← rowGet row "Club"
  let stype ← rowGet row "Shot Type"
  let carry ← rowGet row "Carry [yds]"
  pure s!"{idx}: {club} | {stype} | Carry {carry} yd"

/-- The metrics dict built in lines 77-79: `"Index"` maps to the selected
index, and every later entry of `desired_metrics` maps to the row value with
the guarded `row.get(col, "N/A")`. -/
def buildMetrics (selected_idx : Nat) (row : Row) : List (String × String) :=
  ("Index", toString selected_idx) ::
    desired_metrics.tail.map (fun col => (col, rowGetD row col "N/A"))

/-- Fuel-indexed slicing loop; with fuel at least the list length this is
`[l[i:i+n] for i in range(0, len(l), n)]`. -/
def chunksAux {α : Type} (n : Nat) : Nat → List α → List (List α)
  | _, [] => []
  | 0, _ :: _ => []
  | fuel + 1, a :: t => ((a :: t).take n) :: chunksAux n fuel ((a :: t).drop n)

/-- The grid rows of lines 84-87: `items[i:i+n_cols]` for
`i in range(0, len(items), n_cols)`. -/
def chunks {α : Type} (n : Nat) (l : List α) : List (List α) :=
  chunksAux n l.length l

/-- One visible element emitted by the script body into the page. -/
inductive RAction where
  | title (s : String)
  | subheader (s : String)
  | table (rows : List Row)
  | selectOption (label : String)
  | metricCell (label value : String)
  | video (path : String)
  | error (msg : String)
deriving DecidableEq, Repr

/-- Resolution of the relative video filename of a row against the lesson
directory (line 98). -/
def resolveVideo (lesson_dir video_name : String) : String :=
  lesson_dir ++ "/" ++ video_name

/-- The script body `main` (lines 20-102) as the ordered list of visible
elements it emits; `none` models a run that dies with an uncaught Python
exception.  `csv_files` is the CSV listing of the lesson directory, `parse` maps a
CSV path to the dataframe `load_data` returns for it, `selected_idx` is the
shot index chosen in the selectbox, and `video_exists` is `Path.exists`. -/
def mainRender (lesson_dir : String) (csv_files : List String)
    (parse : String → DataFrame) (selected_idx : Nat)
    (video_exists : String → Bool) : Option (List RAction) :=
  match csv_files with
  | [] =>
    some [RAction.title "Golf Launch Monitor Viewer",
          RAction.error ("No CSV file found in " ++ lesson_dir)]
  | csv0 :: _ => do
    let df := parse csv0
    let table ← project df preview_cols
    let labels ← mapOpt (format_shot df) (List.range df.rows.length)
    let row ← df.rows.get? selected_idx
    let metrics := buildMetrics selected_idx row
    let video_name ← rowGet row "Radar Video"
    let video_file := resolveVideo lesson_dir video_name
    pure ([RAction.title "Golf Launch Monitor Viewer",
           RAction.subheader ("All Shots: " ++ csv0),
           RAction.table table.rows,
           RAction.subheader "Select a Shot to Play Video"]
      ++ labels.map RAction.selectOption
      ++ [RAction.subheader "Shot Metrics"]
      ++ (chunks 8 metrics).flatten.map (fun lv => RAction.metricCell lv.1 lv.2)
      ++ (if video_exists video_file then [RAction.video video_file]
          else [RAction.error ("Video not found: " ++ video_file)]))

/-- The metric cells of a render trace, in order. -/
def metricCells : List RAction → List (String × String)
  | [] => []
  | RAction.metricCell l v :: t => (l, v) :: metricCells t
  | _ :: t => metricCells t

/-- The selectbox option labels of a render trace, in order. -/
def selectLabels : List RAction → List String
  | [] => []
  | RAction.selectOption s :: t => s :: selectLabels t
  | _ :: t => selectLabels t

/-- The value `format_shot` produces for shot `i` of `df` when every needed
column is present (empty string as a dummy outside that case). -/
def labelFun (df : DataFrame) (i : Nat) : String :=
  match df.rows.get? i with
  | some r =>
    let club := rowGetD r "Club" ""
    let stype := rowGetD r "Shot Type" ""
    let carry := rowGetD r "Carry [yds]" ""
    s!"{i}: {club} | {stype} | Carry {carry} yd"
  | none => ""

theorem mapOpt_eq_some_map {α β : Type} (f : α → Option β) (g : α → β)
    (l : List α) (h : ∀ a ∈ l, f a = some (g a)) :
    mapOpt f l = some (l.map g) := by
  induction l with
  | nil => simp [mapOpt]
  | cons a t ih =>
    have ha := h a (by simp)
    have ht := ih (fun x hx => h x (by simp [hx]))
    simp [mapOpt, ha, ht]

theorem mapOpt_eq_none {α β : Type} (f : α → Option β) (l : List α)
    (a : α) (ha : a ∈ l) (hf : f a = none) :
    mapOpt f l = none := by
  induction l with
  | nil => cases ha
  | cons b t ih =>
    rcases List.mem_cons.mp ha with rfl | hat
    · simp [mapOpt, hf]
    · cases hb : f b
      · simp [mapOpt, hb]
      · simp [mapOpt, hb, ih hat]

theorem mapOpt_get {α β : Type} (f : α → Option β) :
    ∀ (l : List α) (l2 : List β), mapOpt f l = some l2 →
      l2.length = l.length ∧
      ∀ i a b, l.get? i = some a → l2.get? i = some b → f a = some b := by
  intro l
  induction l with
  | nil =>
    intro l2 h
    simp [mapOpt] at h
    subst h
    simp
  | cons a t ih =>
    intro l2 h
    simp [mapOpt, Option.bind_eq_some] at h
    obtain ⟨b, hb, t2, ht2, rfl⟩ := h
    obtain ⟨hlen, hget⟩ := ih t2 ht2
    refine ⟨by simp [hlen], ?_⟩
    intro i x y hx hy
    cases i with
    | zero =>
      simp at hx hy
      subst hx; subst hy
      exact hb
    | succ n =>
      simp only [List.get?_cons_succ] at hx hy
      exact hget n x y hx hy

theorem projectRow_spec (r : Row) :
    ∀ (cols : List String) (pr : Row), projectRow r cols = some pr →
      pr = cols.map (fun c => (c, rowGetD r c "")) ∧
      ∀ c ∈ cols, (rowGet r c).isSome := by
  intro cols
  induction cols with
  | nil =>
    intro pr h
    simp [projectRow, mapOpt] at h
    simp [h.symm]
  | cons c t ih =>
    intro pr h
    simp only [projectRow, mapOpt, Option.bind_eq_some] at h
    cases hc : rowGet r c with
    | none => simp [hc] at h
    | some v =>
      simp only [hc, Option.map_some] at h
      cases ht : projectRow r t with
      | none =>
        simp only [projectRow] at ht
        simp [ht] at h
      | some tr =>
        simp only [projectRow] at ht
        simp [ht] at h
        obtain ⟨htr, hmem⟩ := ih tr ht
        constructor
        · rw [← h, htr]
          simp [rowGetD, hc]
        · intro x hx
          rcases List.mem_cons.mp hx with rfl | hxt
          · simp [hc]
          · exact hmem x hxt

theorem rowGet_map_of_mem (cols : List String) (v : String → String)
    (c : String) (hc : c ∈ cols) :
    rowGet (cols.map (fun x => (x, v x))) c = some (v c) := by
  induction cols with
  | nil => cases hc
  | cons b t ih =>
    rcases eq_or_ne c b with rfl | hne
    · simp [rowGet_cons]
    · rcases List.mem_cons.mp hc with rfl | hct
      · simp [rowGet_cons]
      · simp [rowGet_cons, hne, ih hct]

theorem projectRow_eq_some (r : Row) (cols : List String)
    (h : ∀ c ∈ cols, (rowGet r c).isSome) :
    projectRow r cols = some (cols.map (fun c => (c, rowGetD r c ""))) := by
  apply mapOpt_eq_some_map
  intro c hc
  cases hv : rowGet r c with
  | none => exact absurd (h c hc) (by simp [hv])
  | some v => simp [hv, rowGetD]

theorem chunksAux_flatten {α : Type} (n : Nat) (hn : 1 ≤ n) :
    ∀ (fuel : Nat) (l : List α), l.length ≤ fuel →
      (chunksAux n fuel l).flatten = l := by
  intro fuel
  induction fuel with
  | zero =>
    intro l hl
    cases l with
    | nil => simp [chunksAux]
    | cons a t => simp at hl
  | succ m ih =>
    intro l hl
    cases l with
    | nil => simp [chunksAux]
    | cons a t =>
      have hdrop : ((a :: t).drop n).length ≤ m := by
        simp only [List.length_drop]
        omega
      simp [chunksAux, ih _ hdrop]

theorem chunks_flatten {α : Type} (n : Nat) (hn : 1 ≤ n) (l : List α) :
    (chunks n l).flatten = l :=
  chunksAux_flatten n hn l.length l (le_refl _)

theorem chunksAux_length_le {α : Type} (n : Nat) :
    ∀ (fuel : Nat) (l : List α) (c : List α),
      c ∈ chunksAux n fuel l → c.length ≤ n := by
  intro fuel
  induction fuel with
  | zero =>
    intro l c hc
    cases l <;> simp [chunksAux] at hc
  | succ m ih =>
    intro l c hc
    cases l with
    | nil => simp [chunksAux] at hc
    | cons a t =>
      simp only [chunksAux, List.mem_cons] at hc
      rcases hc with rfl | hc
      · simp
      · exact ih _ c hc

theorem chunks_length_le {α : Type} (n : Nat) (l : List α) :
    ∀ c ∈ chunks n l, c.length ≤ n :=
  fun c hc => chunksAux_length_le n l.length l c hc

theorem format_shot_eq_labelFun (df : DataFrame) (i : Nat) (r : Row)
    (hr : df.rows.get? i = some r)
    (hclub : (rowGet r "Club").isSome = true)
    (hst : (rowGet r "Shot Type").isSome = true)
    (hcy : (rowGet r "Carry [yds]").isSome = true) :
    format_shot df i = some (labelFun df i) := by
  obtain ⟨club, hc⟩ := Option.isSome_iff_exists.mp hclub
  obtain ⟨stype, hs⟩ := Option.isSome_iff_exists.mp hst
  obtain ⟨carry, hy⟩ := Option.isSome_iff_exists.mp hcy
  have hr2 : df.rows[i]? = some r := by simpa using hr
  simp [format_shot, labelFun, hr2, hc, hs, hy, rowGetD]

theorem mainRender_success (lesson_dir csv0 : String) (rest : List String)
    (parse : String → DataFrame) (selected_idx : Nat)
    (video_exists : String → Bool) (row : Row) (video_name : String)
    (hall : ∀ r ∈ (parse csv0).rows, ∀ c ∈ preview_cols,
      (rowGet r c).isSome = true)
    (hrow : (parse csv0).rows.get? selected_idx = some row)
    (hvn : rowGet row "Radar Video" = some video_name) :
    mainRender lesson_dir (csv0 :: rest) parse selected_idx video_exists =
      some ([RAction.title "Golf Launch Monitor Viewer",
             RAction.subheader ("All Shots: " ++ csv0),
             RAction.table ((parse csv0).rows.map
               (fun r => preview_cols.map (fun c => (c, rowGetD r c "")))),
             RAction.subheader "Select a Shot to Play Video"]
        ++ (((List.range (parse csv0).rows.length).map
              (labelFun (parse csv0))).map RAction.selectOption)
        ++ [RAction.subheader "Shot Metrics"]
        ++ (chunks 8 (buildMetrics selected_idx row)).flatten.map
             (fun lv => RAction.metricCell lv.1 lv.2)
        ++ (if video_exists (resolveVideo lesson_dir video_name)
            then [RAction.video (resolveVideo lesson_dir video_name)]
            else [RAction.error
              ("Video not found: " ++ resolveVideo lesson_dir video_name)])) := by
  have hproj : project (parse csv0) preview_cols =
      some ⟨(parse csv0).rows.map
        (fun r => preview_cols.map (fun c => (c, rowGetD r c "")))⟩ := by
    unfold project
    rw [mapOpt_eq_some_map (fun r => projectRow r preview_cols)
      (fun r => preview_cols.map (fun c => (c, rowGetD r c ""))) _
      (fun r hr => projectRow_eq_some r preview_cols (hall r hr))]
    rfl
  have hlabels : mapOpt (format_shot (parse csv0))
      (List.range (parse csv0).rows.length) =
      some ((List.range (parse csv0).rows.length).map
        (labelFun (parse csv0))) := by
    apply mapOpt_eq_some_map
    intro i hi
    have hi2 : i < (parse csv0).rows.length := List.mem_range.mp hi
    have hr : (parse csv0).rows.get? i =
        some ((parse csv0).rows.get ⟨i, hi2⟩) := List.get?_eq_get hi2
    have hmem : (parse csv0).rows.get ⟨i, hi2⟩ ∈ (parse csv0).rows :=
      List.get_mem _ _ hi2
    exact format_shot_eq_labelFun _ _ _ hr
      (hall _ hmem _ (by simp [preview_cols]))
      (hall _ hmem _ (by simp [preview_cols]))
      (hall _ hmem _ (by simp [preview_cols]))
  have hrow2 : (parse csv0).rows[selected_idx]? = some row := by simpa using hrow
  simp [mainRender, hproj, hlabels, hrow2, hvn]

theorem metricCells_append (l1 l2 : List RAction) :
    metricCells (l1 ++ l2) = metricCells l1 ++ metricCells l2 := by
  induction l1 with
  | nil => simp [metricCells]
  | cons a t ih => cases a <;> simp [metricCells, ih]

theorem metricCells_selectOptions (ls : List String) :
    metricCells (ls.map RAction.selectOption) = [] := by
  induction ls with
  | nil => simp [metricCells]
  | cons a t ih => simp [metricCells, ih]

theorem metricCells_cells (l : List (String × String)) :
    metricCells (l.map (fun lv => RAction.metricCell lv.1 lv.2)) = l := by
  induction l with
  | nil => simp [metricCells]
  | cons a t ih => simp [metricCells, ih]

theorem selectLabels_append (l1 l2 : List RAction) :
    selectLabels (l1 ++ l2) = selectLabels l1 ++ selectLabels l2 := by
  induction l1 with
  | nil => simp [selectLabels]
  | cons a t ih => cases a <;> simp [selectLabels, ih]

theorem selectLabels_selectOptions (ls : List String) :
    selectLabels (ls.map RAction.selectOption) = ls := by
  induction ls with
  | nil => simp [selectLabels]
  | cons a t ih => simp [selectLabels, ih]

theorem selectLabels_cells (l : List (String × String)) :
    selectLabels (l.map (fun lv => RAction.metricCell lv.1 lv.2)) = [] := by
  induction l with
  | nil => simp [selectLabels]
  | cons a t ih => simp [selectLabels, ih]

/-- Claim check C2: when the projection of the loaded table to the preview
columns succeeds (all preview columns present), the table view holds exactly
one row per CSV row, position by position (so in original file order), each
rendered row carrying exactly the preview columns with unmodified cell
values. -/
theorem table_view_spec (df : DataFrame) (proj : DataFrame)
    (h : project df preview_cols = some proj) :
    proj.rows.length = df.rows.length ∧
    ∀ i r pr, df.rows.get? i = some r → proj.rows.get? i = some pr →
      pr.map Prod.fst = preview_cols ∧
      ∀ c ∈ preview_cols, rowGet pr c = rowGet r c := by
  unfold project at h
  cases hm : mapOpt (fun r => projectRow r preview_cols) df.rows with
  | none => rw [hm] at h; cases h
  | some l2 =>
    rw [hm] at h
    have h2 : DataFrame.mk l2 = proj := Option.some_inj.mp h
    subst h2
    obtain ⟨hlen, hget⟩ := mapOpt_get _ df.rows l2 hm
    constructor
    · exact hlen
    · intro i r pr hr hpr
      have hf := hget i r pr hr hpr
      obtain ⟨hpr_eq, hsome⟩ := projectRow_spec r preview_cols pr hf
      constructor
      · rw [hpr_eq]
        rfl
      · intro c hc
        rw [hpr_eq, rowGet_map_of_mem preview_cols _ c hc]
        obtain ⟨v, hv⟩ := Option.isSome_iff_exists.mp (hsome c hc)
        simp [rowGetD, hv]

/-- Every metric column after "Index" is read off the row with the guarded
`row.get(col, "N/A")`. -/
theorem buildMetrics_lookup (idx : Nat) (row : Row) (d : String)
    (hd : d ∈ desired_metrics.tail) :
    rowGet (buildMetrics idx row) d = some (rowGetD row d "N/A") := by
  have hIdx : ∀ x ∈ desired_metrics.tail, x ≠ "Index" := by decide
  have hne : (d == "Index") = false := by
    simp [hIdx d hd]
  rw [buildMetrics, rowGet_cons]
  simp only [hne, if_false]
  exact rowGet_map_of_mem desired_metrics.tail _ d hd

/-- Claim check C3: a metric column of `desired_metrics` other than "Index"
that is missing from the selected row renders as the placeholder "N/A", and
the rest of the metrics grid is still built in full (all 13 labels, each
later metric via the guarded lookup). -/
theorem missing_metric_placeholder (idx : Nat) (row : Row) (c : String)
    (hc : c ∈ desired_metrics.tail) (hm : rowGet row c = none) :
    rowGet (buildMetrics idx row) c = some "N/A" ∧
    (buildMetrics idx row).length = desired_metrics.length ∧
    (buildMetrics idx row).map Prod.fst = desired_metrics ∧
    ∀ d ∈ desired_metrics.tail,
      rowGet (buildMetrics idx row) d = some (rowGetD row d "N/A") := by
  refine ⟨?_, by simp [buildMetrics, desired_metrics],
    by simp [buildMetrics, desired_metrics],
    fun d hd => buildMetrics_lookup idx row d hd⟩
  rw [buildMetrics_lookup idx row c hc]
  simp [rowGetD, hm]

/-- Claim check C4: with no CSV file in the chosen lesson directory, the
script emits the title and a user-visible error naming the directory, and
nothing else: no table, no selector options, no metric cells, no video. -/
theorem no_csv_error (lesson_dir : String) (parse : String → DataFrame)
    (selected_idx : Nat) (video_exists : String → Bool) :
    mainRender lesson_dir [] parse selected_idx video_exists =
      some [RAction.title "Golf Launch Monitor Viewer",
            RAction.error ("No CSV file found in " ++ lesson_dir)] ∧
    ∀ acts, mainRender lesson_dir [] parse selected_idx video_exists =
        some acts →
      ∀ a ∈ acts, (∀ rows, a ≠ RAction.table rows) ∧
        (∀ l v, a ≠ RAction.metricCell l v) ∧
        (∀ p, a ≠ RAction.video p) ∧
        (∀ s, a ≠ RAction.selectOption s) := by
  refine ⟨rfl, ?_⟩
  intro acts hacts
  simp only [mainRender, Option.some_inj] at hacts
  subst hacts
  intro a ha
  rcases List.mem_cons.mp ha with rfl | ha
  · simp
  · rcases List.mem_singleton.mp ha with rfl
    simp

/-- Claim check C6: a second `load_data` call on the same path within the
cache lifetime returns the dataframe memoised by the first call and does not
read the file again (the read count and the whole cache state are unchanged),
even if the file contents changed in between (`fs1` versus `fs2`). -/
theorem load_data_cached (fs1 fs2 : String → DataFrame) (st : LoadState)
    (csv_path : String) :
    (load_data fs2 (load_data fs1 st csv_path).2 csv_path).1
        = (load_data fs1 st csv_path).1 ∧
    ((load_data fs2 (load_data fs1 st csv_path).2 csv_path).2).reads
        = ((load_data fs1 st csv_path).2).reads ∧
    (load_data fs2 (load_data fs1 st csv_path).2 csv_path).2
        = (load_data fs1 st csv_path).2 := by
  have h : (load_data fs2 (load_data fs1 st csv_path).2 csv_path).1
        = (load_data fs1 st csv_path).1 ∧
      (load_data fs2 (load_data fs1 st csv_path).2 csv_path).2
        = (load_data fs1 st csv_path).2 := by
    unfold load_data
    cases h : st.cache.lookup csv_path with
    | some df => simp [h]
    | none => simp [h, List.lookup]
  exact ⟨h.1, by rw [h.2], h.2⟩

/-- Claim check C8: for every selected row the metrics grid consists of the
13 metrics of `desired_metrics` in declared order, laid out in slices of at
most eight per grid row, here exactly two rows of 8 and 5. -/
theorem metrics_grid_spec (idx : Nat) (row : Row) :
    (buildMetrics idx row).map Prod.fst = desired_metrics ∧
    (buildMetrics idx row).length = 13 ∧
    (chunks 8 (buildMetrics idx row)).map List.length = [8, 5] ∧
    ∀ c ∈ chunks 8 (buildMetrics idx row), c.length ≤ 8 := by
  refine ⟨by simp [buildMetrics, desired_metrics],
    by simp [buildMetrics, desired_metrics], ?_, chunks_length_le 8 _⟩
  rfl

/-- Claim check C9: the selectbox label for a row with the given club, shot
type and carry values is exactly the template
"{index}: {club} | {shot type} | Carry {carry} yd" instantiated with them. -/
theorem selector_label_format (df : DataFrame) (idx : Nat) (r : Row)
    (club stype carry : String)
    (hr : df.rows.get? idx = some r)
    (hclub : rowGet r "Club" = some club)
    (hst : rowGet r "Shot Type" = some stype)
    (hcy : rowGet r "Carry [yds]" = some carry) :
    format_shot df idx = some s!"{idx}: {club} | {stype} | Carry {carry} yd" := by
  have hr2 : df.rows[idx]? = some r := by simpa using hr
  simp [format_shot, hr2, hclub, hst, hcy]

/-- Claim check C5: when the video file of the selected row does not exist, the
page shows a "Video not found" error instead of playback, emits no video
element and no uncaught failure, and the title, the table and the shot
metrics still render. -/
theorem missing_video_error (lesson_dir csv0 : String) (rest : List String)
    (parse : String → DataFrame) (selected_idx : Nat)
    (video_exists : String → Bool) (row : Row) (video_name : String)
    (hall : ∀ r ∈ (parse csv0).rows, ∀ c ∈ preview_cols,
      (rowGet r c).isSome = true)
    (hrow : (parse csv0).rows.get? selected_idx = some row)
    (hvn : rowGet row "Radar Video" = some video_name)
    (hmiss : video_exists (resolveVideo lesson_dir video_name) = false) :
    ∃ acts,
      mainRender lesson_dir (csv0 :: rest) parse selected_idx video_exists
        = some acts ∧
      RAction.error ("Video not found: " ++ resolveVideo lesson_dir video_name)
        ∈ acts ∧
      (∀ p, RAction.video p ∉ acts) ∧
      RAction.title "Golf Launch Monitor Viewer" ∈ acts ∧
      (∃ trows, RAction.table trows ∈ acts) ∧
      RAction.metricCell "Index" (toString selected_idx) ∈ acts := by
  refine ⟨_, mainRender_success lesson_dir csv0 rest parse selected_idx
    video_exists row video_name hall hrow hvn, ?_, ?_, ?_, ?_, ?_⟩
  · simp [hmiss]
  · intro p
    simp [hmiss, List.mem_append]
  · simp
  · exact ⟨(parse csv0).rows.map
      (fun r => preview_cols.map (fun c => (c, rowGetD r c ""))), by simp⟩
  · rw [chunks_flatten 8 (by norm_num)]
    simp [buildMetrics]

/-- Claim check C7: in a successful render the metric cells of the page are
exactly the metrics built from the row at the selected index and no other
row, and the grid starts with the "Index" field carrying the selected
index. -/
theorem detail_row_selection (lesson_dir csv0 : String) (rest : List String)
    (parse : String → DataFrame) (selected_idx : Nat)
    (video_exists : String → Bool) (row : Row) (video_name : String)
    (hall : ∀ r ∈ (parse csv0).rows, ∀ c ∈ preview_cols,
      (rowGet r c).isSome = true)
    (hrow : (parse csv0).rows.get? selected_idx = some row)
    (hvn : rowGet row "Radar Video" = some video_name) :
    ∃ acts,
      mainRender lesson_dir (csv0 :: rest) parse selected_idx video_exists
        = some acts ∧
      metricCells acts = buildMetrics selected_idx row ∧
      (buildMetrics selected_idx row).head?
        = some ("Index", toString selected_idx) ∧
      rowGet (buildMetrics selected_idx row) "Index"
        = some (toString selected_idx) := by
  refine ⟨_, mainRender_success lesson_dir csv0 rest parse selected_idx
    video_exists row video_name hall hrow hvn, ?_,
    by simp [buildMetrics], by simp [buildMetrics, rowGet_cons]⟩
  rw [metricCells_append, metricCells_append, metricCells_append,
    metricCells_append, metricCells_selectOptions, metricCells_cells,
    chunks_flatten 8 (by norm_num)]
  cases hv : video_exists (resolveVideo lesson_dir video_name) <;>
    simp [metricCells]

/-- Claim check C10: the missing-column tolerance does not extend to the shot
selector or the video lookup: if the selected row lacks "Club", "Shot Type",
"Carry [yds]" or "Radar Video", the run raises instead of rendering
(`format_shot` fails for the first three and the whole render is `none` for
all four), while the metrics grid alone uses the guarded access with its
"N/A" default and still builds all 13 labels. -/
theorem selector_unguarded (df : DataFrame) (idx : Nat) (row : Row)
    (c : String)
    (hrow : df.rows.get? idx = some row)
    (hc : c ∈ ["Club", "Shot Type", "Carry [yds]", "Radar Video"])
    (hmiss : rowGet row c = none) :
    (c ≠ "Radar Video" → format_shot df idx = none) ∧
    (∀ (lesson_dir csv0 : String) (rest : List String)
        (parse : String → DataFrame) (selected_idx : Nat)
        (video_exists : String → Bool), parse csv0 = df →
      mainRender lesson_dir (csv0 :: rest) parse selected_idx video_exists
        = none) ∧
    (∀ i, (buildMetrics i row).map Prod.fst = desired_metrics ∧
      ∀ d ∈ desired_metrics.tail,
        rowGet (buildMetrics i row) d = some (rowGetD row d "N/A")) := by
  have hrow2 : df.rows[idx]? = some row := by simpa using hrow
  have hrmem : row ∈ df.rows := List.get?_mem hrow
  have hc2 := hc
  simp only [List.mem_cons, List.not_mem_nil, or_false] at hc2
  have hpc : c ∈ preview_cols := by
    rcases hc2 with rfl | rfl | rfl | rfl <;> simp [preview_cols]
  have hprojnone : project df preview_cols = none := by
    unfold project
    rw [mapOpt_eq_none (fun r => projectRow r preview_cols) df.rows row hrmem
      (mapOpt_eq_none _ preview_cols c hpc (by simp [hmiss]))]
    rfl
  refine ⟨?_, ?_, ?_⟩
  · intro hne
    rcases hc2 with rfl | rfl | rfl | rfl
    · simp [format_shot, hrow2, hmiss]
    · cases h1 : rowGet row "Club" <;>
        simp [format_shot, hrow2, hmiss, h1]
    · cases h1 : rowGet row "Club" <;> cases h2 : rowGet row "Shot Type" <;>
        simp [format_shot, hrow2, hmiss, h1, h2]
    · exact absurd rfl hne
  · intro lesson_dir csv0 rest parse selected_idx video_exists hparse
    simp [mainRender, hparse, hprojnone]
  · intro i
    exact ⟨by simp [buildMetrics, desired_metrics],
      fun d hd => buildMetrics_lookup i row d hd⟩

/-- Example shot row carrying every consumed CSV column. -/
def exRow0 : Row :=
  [("Player", "Dan"), ("Time", "10:00"), ("Club", "Driver"),
   ("Club Speed [mph]", "95"), ("Shot Type", "Straight"),
   ("Carry [yds]", "210"), ("Radar Video", "shot0.mp4"),
   ("Total [yds]", "230"), ("Smash", "1.45"), ("Spin [rpm]", "2600"),
   ("Club Path [deg]", "1.2"), ("V-Plane [deg]", "12.0"),
   ("Height [ft]", "88"), ("AOA [deg]", "-1.0"), ("Low Point [in]", "2.1")]

/-- Example shot row carrying only the preview columns (so "Smash" and the
other detail-only metrics are missing). -/
def exRow1 : Row :=
  [("Player", "Dan"), ("Time", "10:01"), ("Club", "7 Iron"),
   ("Club Speed [mph]", "80"), ("Shot Type", "Draw"),
   ("Carry [yds]", "150"), ("Radar Video", "shot1.mp4")]

/-- Example loaded table with two shots. -/
def exDf : DataFrame := ⟨[exRow0, exRow1]⟩

/-- Example parse function: every CSV path yields `exDf`. -/
def exParse : String → DataFrame := fun _ => exDf

/-- The projection of `exDf` to the preview columns. -/
def exProj : DataFrame :=
  ⟨[[("Player", "Dan"), ("Time", "10:00"), ("Club", "Driver"),
     ("Club Speed [mph]", "95"), ("Shot Type", "Straight"),
     ("Carry [yds]", "210"), ("Radar Video", "shot0.mp4")],
    [("Player", "Dan"), ("Time", "10:01"), ("Club", "7 Iron"),
     ("Club Speed [mph]", "80"), ("Shot Type", "Draw"),
     ("Carry [yds]", "150"), ("Radar Video", "shot1.mp4")]]⟩

/-- Example row missing the "Club" column needed by the shot selector. -/
def exBadRow : Row := [("Player", "Dan"), ("Shot Type", "Straight")]

/-- Example loaded table whose only row misses "Club". -/
def exBadDf : DataFrame := ⟨[exBadRow]⟩

/-- Witness for C2 at the concrete table `exDf`. -/
theorem table_view_spec_witness :
    exProj.rows.length = exDf.rows.length ∧
    ∀ i r pr, exDf.rows.get? i = some r → exProj.rows.get? i = some pr →
      pr.map Prod.fst = preview_cols ∧
      ∀ c ∈ preview_cols, rowGet pr c = rowGet r c :=
  table_view_spec exDf exProj (by decide)

/-- Witness for C3: `exRow1` misses "Smash". -/
theorem missing_metric_placeholder_witness :
    rowGet (buildMetrics 0 exRow1) "Smash" = some "N/A" ∧
    (buildMetrics 0 exRow1).length = desired_metrics.length ∧
    (buildMetrics 0 exRow1).map Prod.fst = desired_metrics ∧
    ∀ d ∈ desired_metrics.tail,
      rowGet (buildMetrics 0 exRow1) d = some (rowGetD exRow1 d "N/A") :=
  missing_metric_placeholder 0 exRow1 "Smash" (by decide) (by decide)

/-- Witness for C5: shot 0 of `exDf` with a filesystem on which no video
exists. -/
theorem missing_video_error_witness :
    ∃ acts,
      mainRender "Lesson1" ["a.csv"] exParse 0 (fun _ => false) = some acts ∧
      RAction.error ("Video not found: " ++ resolveVideo "Lesson1" "shot0.mp4")
        ∈ acts ∧
      (∀ p, RAction.video p ∉ acts) ∧
      RAction.title "Golf Launch Monitor Viewer" ∈ acts ∧
      (∃ trows, RAction.table trows ∈ acts) ∧
      RAction.metricCell "Index" (toString 0) ∈ acts :=
  missing_video_error "Lesson1" "a.csv" [] exParse 0 (fun _ => false) exRow0
    "shot0.mp4" (by decide) (by decide) (by decide) rfl

/-- Witness for C7: shot 1 of `exDf`. -/
theorem detail_row_selection_witness :
    ∃ acts,
      mainRender "Lesson1" ["a.csv"] exParse 1 (fun _ => true) = some acts ∧
      metricCells acts = buildMetrics 1 exRow1 ∧
      (buildMetrics 1 exRow1).head? = some ("Index", toString 1) ∧
      rowGet (buildMetrics 1 exRow1) "Index" = some (toString 1) :=
  detail_row_selection "Lesson1" "a.csv" [] exParse 1 (fun _ => true) exRow1
    "shot1.mp4" (by decide) (by decide) (by decide)

/-- Witness for C9: shot 0 of `exDf`. -/
theorem selector_label_format_witness :
    format_shot exDf 0 = some "0: Driver | Straight | Carry 210 yd" := by
  rw [selector_label_format exDf 0 exRow0 "Driver" "Straight" "210"
    (by decide) (by decide) (by decide) (by decide)]
  decide

/-- Witness for C10: the only row of `exBadDf` misses "Club". -/
theorem selector_unguarded_witness :
    ("Club" ≠ "Radar Video" → format_shot exBadDf 0 = none) ∧
    (∀ (lesson_dir csv0 : String) (rest : List String)
        (parse : String → DataFrame) (selected_idx : Nat)
        (video_exists : String → Bool), parse csv0 = exBadDf →
      mainRender lesson_dir (csv0 :: rest) parse selected_idx video_exists
        = none) ∧
    (∀ i, (buildMetrics i exBadRow).map Prod.fst = desired_metrics ∧
      ∀ d ∈ desired_metrics.tail,
        rowGet (buildMetrics i exBadRow) d
          = some (rowGetD exBadRow d "N/A")) :=
  selector_unguarded exBadDf 0 exBadRow "Club" (by decide) (by decide)
    (by decide)
